import Mathlib

/-!
Verification of the WORKBank data pipeline (`src/data_loader.py`).

Tables are shallowly embedded as lists of record rows; pandas float cells
that may be NaN (after a left join) are embedded as `Option ℚ` with `none`
playing the role of NaN.  Ratings present in the raw input tables are plain
`ℚ`.  The pandas `groupby` sorts its keys; here group keys are taken in
`List.dedup` order instead — no property below depends on row order, only on
the multiset of rows.  The "Automation Desire Std" column is a sample
standard deviation, `sqrt` of the sample variance; to keep every definition
executable the embedded column `automationDesireStdSq` stores the sample
variance (the square of the source column).  The two agree exactly on
definedness, and the variance determines the std (its nonnegative square
root), so properties of the std column are stated through its square.
-/

namespace Workbank

/-- One row of the worker desire table (`domain_worker_desires.csv` schema,
see `_load_mock_data` in `src/data_loader.py`). -/
structure WorkerRow where
  taskId : String
  task : String
  occupation : String
  automationDesireRating : ℚ
  jobSecurityRating : ℚ
  enjoymentRating : ℚ
  workerId : String
  domain : String
deriving DecidableEq

/-- One row of the expert ratings table. -/
structure ExpertRow where
  taskId : String
  task : String
  expertCapabilityRating : ℚ
  expertId : String
  confidence : ℚ
deriving DecidableEq

/-- One row of the task metadata table. -/
structure TaskRow where
  taskId : String
  task : String
  occupation : String
  onetSocCode : String
  domain : String
  taskCategory : String
deriving DecidableEq

/-- Arithmetic mean of a list of rationals (pandas `mean` on a non-empty,
NaN-free column; the `0` value at `[]` is never used on grouped data). -/
def mean (xs : List ℚ) : ℚ := xs.sum / (xs.length : ℚ)

/-- Sample variance (the square of pandas `std`, which uses `ddof=1`):
`Σ (x - mean)² / (n - 1)`, undefined (NaN) when `n ≤ 1`. -/
def sampleVariance (xs : List ℚ) : Option ℚ :=
  if xs.length ≤ 1 then none
  else some ((xs.map (fun x => (x - mean xs) ^ 2)).sum / ((xs.length : ℚ) - 1))

/-- The group of worker rows sharing a task identifier
(`worker_df.groupby("Task ID")`, one group). -/
def groupRows (w : List WorkerRow) (id : String) : List WorkerRow :=
  w.filter (fun r => r.taskId = id)

/-- One row of the aggregated worker table `worker_summary`
(`src/data_loader.py:259-279`), after column flattening. -/
structure WorkerSummaryRow where
  taskId : String
  automationDesireRating : ℚ
  automationDesireStdSq : Option ℚ
  workerCount : ℕ
  jobSecurityRating : ℚ
  enjoymentRating : ℚ
  task : String
  occupation : String
  domain : String
deriving DecidableEq

/-- The aggregate row of one worker group: means, sample std (stored
squared), count, and the first-seen task / occupation / domain. -/
def mkWorkerSummary (w : List WorkerRow) (id : String) : WorkerSummaryRow :=
  { taskId := id
    automationDesireRating := mean ((groupRows w id).map (·.automationDesireRating))
    automationDesireStdSq := sampleVariance ((groupRows w id).map (·.automationDesireRating))
    workerCount := (groupRows w id).length
    jobSecurityRating := mean ((groupRows w id).map (·.jobSecurityRating))
    enjoymentRating := mean ((groupRows w id).map (·.enjoymentRating))
    task := ((groupRows w id).map (·.task)).headD ""
    occupation := ((groupRows w id).map (·.occupation)).headD ""
    domain := ((groupRows w id).map (·.domain)).headD "" }

/-- `worker_df.groupby("Task ID").agg(...)`: one aggregate row per distinct
task identifier of the worker table. -/
def workerSummary (w : List WorkerRow) : List WorkerSummaryRow :=
  ((w.map (·.taskId)).dedup).map (mkWorkerSummary w)

/-- One row of the aggregated expert table `expert_summary`
(`src/data_loader.py:282-285`). -/
structure ExpertSummaryRow where
  taskId : String
  expertCapabilityRating : ℚ
  confidence : ℚ
deriving DecidableEq

/-- The group of expert rows sharing a task identifier. -/
def expertGroupRows (e : List ExpertRow) (id : String) : List ExpertRow :=
  e.filter (fun r => r.taskId = id)

/-- The aggregate row of one expert group: mean capability and confidence. -/
def mkExpertSummary (e : List ExpertRow) (id : String) : ExpertSummaryRow :=
  { taskId := id
    expertCapabilityRating := mean ((expertGroupRows e id).map (·.expertCapabilityRating))
    confidence := mean ((expertGroupRows e id).map (·.confidence)) }

/-- `expert_df.groupby("Task ID").agg(...)`. -/
def expertSummary (e : List ExpertRow) : List ExpertSummaryRow :=
  ((e.map (·.taskId)).dedup).map (mkExpertSummary e)

/-- The matches of one left row in a pandas left merge: every right row with
the same key, or a single `none` (NaN-filled right side) when there is no
match. -/
def leftMatches {α : Type} (p : α → Bool) (l : List α) : List (Option α) :=
  if (l.filter p).isEmpty then [none] else (l.filter p).map some

/-- Python `min(a, b)` on floats where `b` may be NaN (`none`): returns `b`
only when `b < a` holds, and every comparison with NaN is false, so a NaN
`b` yields `a` (`src/data_loader.py:292-295`). -/
def pyMinFst (a : ℚ) (b : Option ℚ) : Option ℚ :=
  match b with
  | none => some a
  | some c => if c < a then some c else some a

/-- One row of the combined analysis table returned by
`prepare_analysis_data`. -/
structure CombinedRow where
  taskId : String
  automationDesireRating : ℚ
  automationDesireStdSq : Option ℚ
  workerCount : ℕ
  jobSecurityRating : ℚ
  enjoymentRating : ℚ
  task : String
  occupation : String
  domain : String
  expertCapabilityRating : Option ℚ
  confidence : Option ℚ
  onetSocCode : Option String
  taskCategory : Option String
  automationReadiness : Option ℚ
  desireCapabilityGap : Option ℚ
deriving DecidableEq

/-- Assembles one combined row from a worker aggregate row and its (possibly
absent) expert-aggregate and task-metadata matches.  The two derived columns
are computed row-wise exactly as the source does after the merges:
`Automation Readiness = min(desire, capability)` via Python `min` (which
returns the desire mean when capability is NaN), and
`Desire Capability Gap = desire - capability` (NaN-propagating). -/
def combineRow (ws : WorkerSummaryRow) (es : Option ExpertSummaryRow)
    (tr : Option TaskRow) : CombinedRow :=
  { taskId := ws.taskId
    automationDesireRating := ws.automationDesireRating
    automationDesireStdSq := ws.automationDesireStdSq
    workerCount := ws.workerCount
    jobSecurityRating := ws.jobSecurityRating
    enjoymentRating := ws.enjoymentRating
    task := ws.task
    occupation := ws.occupation
    domain := ws.domain
    expertCapabilityRating := es.map (·.expertCapabilityRating)
    confidence := es.map (·.confidence)
    onetSocCode := tr.map (·.onetSocCode)
    taskCategory := tr.map (·.taskCategory)
    automationReadiness :=
      pyMinFst ws.automationDesireRating (es.map (·.expertCapabilityRating))
    desireCapabilityGap :=
      (es.map (·.expertCapabilityRating)).map
        (fun c => ws.automationDesireRating - c) }

/-- `prepare_analysis_data(worker_df, expert_df, task_df)`
(`src/data_loader.py:245-302`): aggregate workers and experts by task
identifier, left-merge the worker aggregate with the expert aggregate and
then with the metadata columns, and compute the two derived columns. -/
def prepare_analysis_data (w : List WorkerRow) (e : List ExpertRow)
    (t : List TaskRow) : List CombinedRow :=
  (workerSummary w).flatMap fun ws =>
    (leftMatches (fun es => es.taskId = ws.taskId) (expertSummary e)).flatMap fun es =>
      (leftMatches (fun tr => tr.taskId = ws.taskId) t).map fun tr =>
        combineRow ws es tr

/-- Mean of a float column that skips NaN entries (pandas `Series.mean`);
`none` (NaN) when no entry is defined. -/
def nanMean (xs : List (Option ℚ)) : Option ℚ :=
  if xs.reduceOption.isEmpty then none else some (mean xs.reduceOption)

/-- The dictionary returned by `get_summary_stats`. -/
structure SummaryStats where
  total_tasks : ℕ
  total_workers : ℕ
  avg_automation_desire : Option ℚ
  avg_expert_capability : Option ℚ
  avg_automation_readiness : Option ℚ
  unique_occupations : ℕ
  unique_domains : ℕ
deriving DecidableEq

/-- `get_summary_stats(combined_df)` (`src/data_loader.py:305-315`). -/
def get_summary_stats (df : List CombinedRow) : SummaryStats :=
  { total_tasks := df.length
    total_workers := (df.map (·.workerCount)).sum
    avg_automation_desire := nanMean (df.map (fun r => some r.automationDesireRating))
    avg_expert_capability := nanMean (df.map (·.expertCapabilityRating))
    avg_automation_readiness := nanMean (df.map (·.automationReadiness))
    unique_occupations := ((df.map (·.occupation)).dedup).length
    unique_domains := ((df.map (·.domain)).dedup).length }

/-- The fixed fallback worker table of `_load_mock_data`
(`src/data_loader.py:80-151`). -/
def mockWorkerData : List WorkerRow :=
  [ { taskId := "T001", task := "Create marketing materials and promotional content",
      occupation := "Marketing Managers", automationDesireRating := 4.2,
      jobSecurityRating := 3.1, enjoymentRating := 3.8,
      workerId := "W001", domain := "Marketing" },
    { taskId := "T002", task := "Analyze customer feedback and survey responses",
      occupation := "Market Research Analysts", automationDesireRating := 4.7,
      jobSecurityRating := 2.8, enjoymentRating := 2.9,
      workerId := "W002", domain := "Research" },
    { taskId := "T003", task := "Schedule appointments and manage calendars",
      occupation := "Administrative Assistants", automationDesireRating := 4.9,
      jobSecurityRating := 2.3, enjoymentRating := 2.1,
      workerId := "W003", domain := "Administration" },
    { taskId := "T004", task := "Provide emotional support and counseling to patients",
      occupation := "Clinical Social Workers", automationDesireRating := 1.2,
      jobSecurityRating := 4.8, enjoymentRating := 4.9,
      workerId := "W004", domain := "Healthcare" },
    { taskId := "T005", task := "Write and edit technical documentation",
      occupation := "Technical Writers", automationDesireRating := 3.4,
      jobSecurityRating := 3.6, enjoymentRating := 4.1,
      workerId := "W005", domain := "Technical" },
    { taskId := "T001", task := "Create marketing materials and promotional content",
      occupation := "Marketing Managers", automationDesireRating := 3.8,
      jobSecurityRating := 3.5, enjoymentRating := 4.0,
      workerId := "W006", domain := "Marketing" },
    { taskId := "T002", task := "Analyze customer feedback and survey responses",
      occupation := "Market Research Analysts", automationDesireRating := 4.5,
      jobSecurityRating := 3.0, enjoymentRating := 3.2,
      workerId := "W007", domain := "Research" } ]

/-- The fixed fallback expert table of `_load_mock_data`
(`src/data_loader.py:154-190`). -/
def mockExpertData : List ExpertRow :=
  [ { taskId := "T001", task := "Create marketing materials and promotional content",
      expertCapabilityRating := 3.5, expertId := "E001", confidence := 4.2 },
    { taskId := "T002", task := "Analyze customer feedback and survey responses",
      expertCapabilityRating := 4.1, expertId := "E002", confidence := 4.5 },
    { taskId := "T003", task := "Schedule appointments and manage calendars",
      expertCapabilityRating := 4.8, expertId := "E003", confidence := 4.9 },
    { taskId := "T004", task := "Provide emotional support and counseling to patients",
      expertCapabilityRating := 1.5, expertId := "E004", confidence := 4.7 },
    { taskId := "T005", task := "Write and edit technical documentation",
      expertCapabilityRating := 3.8, expertId := "E005", confidence := 4.0 } ]

/-- The fixed fallback task metadata table of `_load_mock_data`
(`src/data_loader.py:193-234`). -/
def mockTaskMetadata : List TaskRow :=
  [ { taskId := "T001", task := "Create marketing materials and promotional content",
      occupation := "Marketing Managers", onetSocCode := "11-2021.00",
      domain := "Marketing", taskCategory := "Creative" },
    { taskId := "T002", task := "Analyze customer feedback and survey responses",
      occupation := "Market Research Analysts", onetSocCode := "13-1161.00",
      domain := "Research", taskCategory := "Analytical" },
    { taskId := "T003", task := "Schedule appointments and manage calendars",
      occupation := "Administrative Assistants", onetSocCode := "43-6011.00",
      domain := "Administration", taskCategory := "Organizational" },
    { taskId := "T004", task := "Provide emotional support and counseling to patients",
      occupation := "Clinical Social Workers", onetSocCode := "21-1022.00",
      domain := "Healthcare", taskCategory := "Interpersonal" },
    { taskId := "T005", task := "Write and edit technical documentation",
      occupation := "Technical Writers", onetSocCode := "27-3042.00",
      domain := "Technical", taskCategory := "Communication" } ]

/-- `_load_mock_data()`: the deterministic fallback triple. -/
def load_mock_data : List WorkerRow × List ExpertRow × List TaskRow :=
  (mockWorkerData, mockExpertData, mockTaskMetadata)

/-- Severity of a log record emitted by the loader. -/
inductive LogLevel where
  | info
  | warning
deriving DecidableEq

/-- `load_workbank_datasets()` (`src/data_loader.py:18-32`).  The remote
fetch `_load_from_huggingface()` is an external effect; its outcome is
passed in as an `Except`, with `Except.error msg` standing for the fetch
raising any exception with message `msg`.  The `try/except Exception`
converts every error into the fallback triple with a warning log; the
function itself returns on every outcome. -/
def load_workbank_datasets
    (fetch : Except String (List WorkerRow × List ExpertRow × List TaskRow)) :
    (List WorkerRow × List ExpertRow × List TaskRow) × List (LogLevel × String) :=
  match fetch with
  | Except.ok tables =>
      (tables, [(LogLevel.info, "Attempting to load data from HuggingFace...")])
  | Except.error msg =>
      (load_mock_data,
        [(LogLevel.info, "Attempting to load data from HuggingFace..."),
         (LogLevel.warning, "Failed to load from HuggingFace: " ++ msg),
         (LogLevel.info, "Using fallback mock data with real schema...")])

/-! ## Structural lemmas about the embedded pipeline -/

/-- Membership in the matches of a left-merge row: either the single
NaN-filled `none` when nothing matches, or one of the matching right rows. -/
lemma mem_leftMatches {α : Type} {p : α → Bool} {l : List α} {x : Option α} :
    x ∈ leftMatches p l ↔
      (x = none ∧ ∀ a ∈ l, ¬ p a = true) ∨ ∃ a, x = some a ∧ a ∈ l ∧ p a = true := by
  by_cases hf : l.filter p = []
  · have hall : ∀ a ∈ l, ¬ p a = true := List.filter_eq_nil_iff.mp hf
    simp only [leftMatches, hf, List.isEmpty_nil, if_true, List.mem_singleton]
    constructor
    · intro hx
      exact Or.inl ⟨hx, hall⟩
    · rintro (⟨hx, _⟩ | ⟨a, _, ha, hpa⟩)
      · exact hx
      · exact absurd hpa (hall a ha)
  · simp only [leftMatches, List.isEmpty_iff, hf, if_false, List.mem_map,
      List.mem_filter]
    constructor
    · rintro ⟨a, ⟨ha, hpa⟩, hax⟩
      exact Or.inr ⟨a, hax.symm, ha, hpa⟩
    · rintro (⟨hx, hall⟩ | ⟨a, hx, ha, hpa⟩)
      · exact absurd (List.filter_eq_nil_iff.mpr hall) hf
      · exact ⟨a, ⟨ha, hpa⟩, hx.symm⟩

/-- When at most one right row matches, the left merge keeps exactly one
output row for the left row. -/
lemma leftMatches_length_eq_one {α : Type} {p : α → Bool} {l : List α}
    (h : (l.filter p).length ≤ 1) : (leftMatches p l).length = 1 := by
  by_cases hf : l.filter p = []
  · simp [leftMatches, hf]
  · have h1 : 0 < (l.filter p).length := List.length_pos.mpr hf
    have hlen : (l.filter p).length = 1 := le_antisymm h h1
    simp [leftMatches, List.isEmpty_iff, hf, hlen]

/-- A list whose image under `f` has no duplicates has at most one element
with a given `f`-value. -/
lemma length_filter_key_le_one {α β : Type} [DecidableEq β] (f : α → β) (k : β)
    (l : List α) (h : (l.map f).Nodup) :
    (l.filter (fun x => f x = k)).length ≤ 1 := by
  induction l with
  | nil => simp
  | cons x xs ih =>
    simp only [List.map_cons, List.nodup_cons] at h
    by_cases hx : f x = k
    · have hxs : xs.filter (fun a => f a = k) = [] := by
        rw [List.filter_eq_nil_iff]
        intro a ha
        simp only [decide_eq_true_eq]
        intro hak
        exact h.1 (List.mem_map.mpr ⟨a, ha, by rw [hak, hx]⟩)
      rw [List.filter_cons_of_pos (by simpa using hx), hxs]
      simp
    · rw [List.filter_cons_of_neg (by simpa using hx)]
      exact ih h.2

/-- The task identifiers of the worker aggregate are the distinct task
identifiers of the worker table. -/
lemma workerSummary_map_taskId (w : List WorkerRow) :
    (workerSummary w).map (·.taskId) = (w.map (·.taskId)).dedup := by
  unfold workerSummary
  rw [List.map_map]
  have : ((fun ws : WorkerSummaryRow => ws.taskId) ∘ mkWorkerSummary w) = id := by
    funext id
    rfl
  rw [this, List.map_id]

/-- The task identifiers of the expert aggregate are the distinct task
identifiers of the expert table. -/
lemma expertSummary_map_taskId (e : List ExpertRow) :
    (expertSummary e).map (·.taskId) = (e.map (·.taskId)).dedup := by
  unfold expertSummary
  rw [List.map_map]
  have : ((fun es : ExpertSummaryRow => es.taskId) ∘ mkExpertSummary e) = id := by
    funext id
    rfl
  rw [this, List.map_id]

/-- Membership in the worker aggregate. -/
lemma mem_workerSummary {w : List WorkerRow} {ws : WorkerSummaryRow} :
    ws ∈ workerSummary w ↔
      ∃ id, id ∈ (w.map (·.taskId)).dedup ∧ ws = mkWorkerSummary w id := by
  simp only [workerSummary, List.mem_map, eq_comm]

/-- Membership in the expert aggregate. -/
lemma mem_expertSummary {e : List ExpertRow} {es : ExpertSummaryRow} :
    es ∈ expertSummary e ↔
      ∃ id, id ∈ (e.map (·.taskId)).dedup ∧ es = mkExpertSummary e id := by
  simp only [expertSummary, List.mem_map, eq_comm]

/-- Every combined row arises from one worker aggregate row and its
(optional) expert and metadata matches. -/
lemma mem_prepare {w : List WorkerRow} {e : List ExpertRow} {t : List TaskRow}
    {row : CombinedRow} :
    row ∈ prepare_analysis_data w e t ↔
      ∃ ws, ws ∈ workerSummary w ∧
        ∃ es, es ∈ leftMatches (fun x => x.taskId = ws.taskId) (expertSummary e) ∧
          ∃ tr, tr ∈ leftMatches (fun x => x.taskId = ws.taskId) t ∧
            row = combineRow ws es tr := by
  simp only [prepare_analysis_data, List.mem_flatMap, List.mem_map, eq_comm]

/-- A `flatMap` of singletons is a `map`. -/
lemma flatMap_eq_map_of_forall {α β : Type} {l : List α} {f : α → List β}
    {g : α → β} (h : ∀ a ∈ l, f a = [g a]) : l.flatMap f = l.map g := by
  induction l with
  | nil => rfl
  | cons x xs ih =>
    rw [List.flatMap_cons, List.map_cons, h x (List.mem_cons_self x xs),
      ih (fun a ha => h a (List.mem_cons_of_mem x ha))]
    rfl

/-- With a duplicate-free metadata table, the combined table has exactly the
distinct worker task identifiers, in aggregate order. -/
lemma prepare_map_taskId (w : List WorkerRow) (e : List ExpertRow)
    (t : List TaskRow) (ht : (t.map (·.taskId)).Nodup) :
    (prepare_analysis_data w e t).map (·.taskId) = (w.map (·.taskId)).dedup := by
  unfold prepare_analysis_data
  rw [List.map_flatMap]
  have hmain : ∀ ws ∈ workerSummary w,
      List.map (fun x : CombinedRow => x.taskId)
        ((leftMatches (fun es => es.taskId = ws.taskId) (expertSummary e)).flatMap fun es =>
          List.map (fun tr => combineRow ws es tr)
            (leftMatches (fun tr => tr.taskId = ws.taskId) t)) = [ws.taskId] := by
    intro ws _
    have he1 : (leftMatches (fun es : ExpertSummaryRow => es.taskId = ws.taskId)
        (expertSummary e)).length = 1 := by
      apply leftMatches_length_eq_one
      exact length_filter_key_le_one (fun x : ExpertSummaryRow => x.taskId) ws.taskId
        (expertSummary e)
        (by rw [expertSummary_map_taskId]; exact List.nodup_dedup _)
    have ht1 : (leftMatches (fun tr : TaskRow => tr.taskId = ws.taskId) t).length = 1 := by
      apply leftMatches_length_eq_one
      exact length_filter_key_le_one (fun x : TaskRow => x.taskId) ws.taskId t ht
    obtain ⟨es0, hes⟩ := List.length_eq_one.mp he1
    obtain ⟨tr0, htr⟩ := List.length_eq_one.mp ht1
    rw [List.map_flatMap, hes, htr]
    rfl
  rw [flatMap_eq_map_of_forall hmain, workerSummary_map_taskId]

/-- Python `min` against a present second argument is the true minimum. -/
lemma pyMinFst_some (a c : ℚ) : pyMinFst a (some c) = some (min a c) := by
  unfold pyMinFst
  by_cases h : c < a
  · simp [h, min_eq_right (le_of_lt h)]
  · simp [h, min_eq_left (le_of_not_lt h)]

/-- Python `min` against NaN returns its first argument. -/
lemma pyMinFst_none (a : ℚ) : pyMinFst a none = some a := rfl

/-- The sample variance (hence the sample std) is undefined exactly on
lists of at most one observation. -/
lemma sampleVariance_eq_none {xs : List ℚ} :
    sampleVariance xs = none ↔ xs.length ≤ 1 := by
  unfold sampleVariance
  split <;> simp_all

/-- Mean of a single observation is that observation. -/
lemma mean_singleton (x : ℚ) : mean [x] = x := by
  simp [mean]

/-- The mean of a non-empty list is at most any upper bound of its
entries. -/
lemma mean_le_of_forall {xs : List ℚ} {b : ℚ} (hne : xs ≠ [])
    (h : ∀ x ∈ xs, x ≤ b) : mean xs ≤ b := by
  have hl : (0 : ℚ) < xs.length := by exact_mod_cast List.length_pos.mpr hne
  rw [mean, div_le_iff₀ hl]
  calc xs.sum ≤ xs.length • b := List.sum_le_card_nsmul xs b h
    _ = b * xs.length := by rw [nsmul_eq_mul]; ring

/-- The mean of a non-empty list is at least any lower bound of its
entries. -/
lemma le_mean_of_forall {xs : List ℚ} {a : ℚ} (hne : xs ≠ [])
    (h : ∀ x ∈ xs, a ≤ x) : a ≤ mean xs := by
  have hl : (0 : ℚ) < xs.length := by exact_mod_cast List.length_pos.mpr hne
  rw [mean, le_div_iff₀ hl]
  calc a * xs.length = xs.length • a := by rw [nsmul_eq_mul]; ring
    _ ≤ xs.sum := List.card_nsmul_le_sum xs a h

/-- A key drawn from the distinct key list has a non-empty group. -/
lemma filter_key_ne_nil {α β : Type} [DecidableEq β] {f : α → β} {l : List α}
    {k : β} (h : k ∈ (l.map f).dedup) : l.filter (fun x => f x = k) ≠ [] := by
  rw [List.mem_dedup, List.mem_map] at h
  obtain ⟨r, hr, hid⟩ := h
  intro hnil
  have hmem : r ∈ l.filter (fun x => f x = k) :=
    List.mem_filter.mpr ⟨hr, by simpa using hid⟩
  simp [hnil] at hmem

/-- Case analysis on a combined row: it is built from the aggregate of one
distinct worker task identifier, joined to the expert aggregate of that
identifier when the expert table mentions it and to NaN columns when it
does not. -/
lemma prepare_row_cases {w : List WorkerRow} {e : List ExpertRow}
    {t : List TaskRow} {row : CombinedRow}
    (hrow : row ∈ prepare_analysis_data w e t) :
    ∃ k, k ∈ (w.map (·.taskId)).dedup ∧
      ∃ es : Option ExpertSummaryRow, ∃ tr : Option TaskRow,
        row = combineRow (mkWorkerSummary w k) es tr ∧
        ((es = none ∧ k ∉ e.map (·.taskId)) ∨
          (es = some (mkExpertSummary e k) ∧ k ∈ e.map (·.taskId))) := by
  obtain ⟨ws, hws, es, hes, tr, htr, hroweq⟩ := mem_prepare.mp hrow
  obtain ⟨k, hk, hwseq⟩ := mem_workerSummary.mp hws
  subst hwseq
  have hkey : (mkWorkerSummary w k).taskId = k := rfl
  rcases mem_leftMatches.mp hes with ⟨hnone, hall⟩ | ⟨esr, heseq, hmem, hpkey⟩
  · subst hnone
    refine ⟨k, hk, none, tr, hroweq, Or.inl ⟨rfl, ?_⟩⟩
    intro hmem
    have hdk : k ∈ (e.map (·.taskId)).dedup := List.mem_dedup.mpr hmem
    have hin : mkExpertSummary e k ∈ expertSummary e :=
      mem_expertSummary.mpr ⟨k, hdk, rfl⟩
    have := hall _ hin
    rw [hkey] at this
    simp [mkExpertSummary] at this
  · subst heseq
    obtain ⟨k2, hk2, heq2⟩ := mem_expertSummary.mp hmem
    rw [hkey] at hpkey
    have hesr : esr.taskId = k := by simpa using hpkey
    have hk2eq : k2 = k := by
      rw [heq2] at hesr
      simpa [mkExpertSummary] using hesr
    subst hk2eq
    refine ⟨k2, hk, some esr, tr, hroweq, Or.inr ⟨by rw [heq2], ?_⟩⟩
    exact List.mem_dedup.mp hk2

/-! ## Claim theorems -/

/-- C1: for every valid input triple whose Task Metadata has a unique task
identifier per row, the combined table has exactly one row per distinct
task identifier of the Worker Response input — its task-identifier column
is duplicate-free and contains an identifier iff the Worker Response input
does; tasks present only in Expert Rating or Task Metadata are dropped. -/
theorem C1_one_row_per_worker_task (w : List WorkerRow) (e : List ExpertRow)
    (t : List TaskRow) (ht : (t.map (·.taskId)).Nodup) :
    ((prepare_analysis_data w e t).map (·.taskId)).Nodup ∧
      ∀ k, k ∈ (prepare_analysis_data w e t).map (·.taskId) ↔
        k ∈ w.map (·.taskId) := by
  rw [prepare_map_taskId w e t ht]
  exact ⟨List.nodup_dedup _, fun _ => List.mem_dedup⟩

/-- C1 witness: the fallback tables instantiate C1. -/
theorem C1_witness :
    (mockTaskMetadata.map (·.taskId)).Nodup ∧
    (((prepare_analysis_data mockWorkerData mockExpertData mockTaskMetadata).map
        (·.taskId)).Nodup ∧
      ∀ k, k ∈ (prepare_analysis_data mockWorkerData mockExpertData
          mockTaskMetadata).map (·.taskId) ↔
        k ∈ mockWorkerData.map (·.taskId)) :=
  ⟨by decide,
   C1_one_row_per_worker_task mockWorkerData mockExpertData mockTaskMetadata
     (by decide)⟩

/-- C2: whenever both the mean automation desire rating and the mean expert
capability rating of a combined row are present, automation readiness is
their minimum and the desire-capability gap is their difference. -/
theorem C2_derived_formulas (w : List WorkerRow) (e : List ExpertRow)
    (t : List TaskRow) (row : CombinedRow)
    (hrow : row ∈ prepare_analysis_data w e t) (c : ℚ)
    (hc : row.expertCapabilityRating = some c) :
    row.automationReadiness = some (min row.automationDesireRating c) ∧
      row.desireCapabilityGap = some (row.automationDesireRating - c) := by
  obtain ⟨k, hk, es, tr, hroweq, hcase⟩ := prepare_row_cases hrow
  rcases hcase with ⟨hnone, _⟩ | ⟨hsome, _⟩
  · subst hnone
    rw [hroweq] at hc
    simp [combineRow] at hc
  · subst hsome
    rw [hroweq] at hc ⊢
    have hceq : (mkExpertSummary e k).expertCapabilityRating = c :=
      Option.some.inj hc
    subst hceq
    exact ⟨pyMinFst_some _ _, rfl⟩

/-- The distinct worker task identifiers of the fallback tables, in the
order `List.dedup` leaves them. -/
def mockTaskIds : List String := ["T003", "T004", "T005", "T001", "T002"]

/-- The combined table of the fallback triple, written out row by row; it
equals `prepare_analysis_data` on the fallback tables definitionally. -/
def mockCombinedRows : List CombinedRow :=
  mockTaskIds.map fun k =>
    combineRow (mkWorkerSummary mockWorkerData k)
      (some (mkExpertSummary mockExpertData k))
      ((mockTaskMetadata.filter (fun tr => tr.taskId = k)).head?)

/-- Running the fallback tables through the transformer yields exactly the
five per-task rows. -/
lemma prepare_mock_eq :
    prepare_analysis_data mockWorkerData mockExpertData mockTaskMetadata =
      mockCombinedRows := rfl

/-- The combined row of task T001 of the fallback tables (two workers, one
expert). -/
def mockCombinedT001 : CombinedRow :=
  combineRow (mkWorkerSummary mockWorkerData "T001")
    (some (mkExpertSummary mockExpertData "T001"))
    ((mockTaskMetadata.filter (fun tr => tr.taskId = "T001")).head?)

/-- The T001 row belongs to the combined fallback table. -/
lemma mockCombinedT001_mem :
    mockCombinedT001 ∈
      prepare_analysis_data mockWorkerData mockExpertData mockTaskMetadata := by
  rw [prepare_mock_eq]
  exact List.mem_map.mpr ⟨"T001", by decide, rfl⟩

/-- C2 witness: the T001 row of the fallback tables instantiates C2 — its
expert capability mean is `3.5`, its automation readiness is
`min(4.0, 3.5)` and its gap is `4.0 - 3.5`. -/
theorem C2_witness :
    mockCombinedT001.expertCapabilityRating = some 3.5 ∧
    mockCombinedT001.automationDesireRating = 4 ∧
    (mockCombinedT001.automationReadiness =
        some (min mockCombinedT001.automationDesireRating 3.5) ∧
      mockCombinedT001.desireCapabilityGap =
        some (mockCombinedT001.automationDesireRating - 3.5)) :=
  ⟨by simp [mockCombinedT001, combineRow, mkExpertSummary, expertGroupRows,
      mockExpertData, mean],
   by simp [mockCombinedT001, combineRow, mkWorkerSummary, groupRows,
      mockWorkerData, mean]; norm_num,
   C2_derived_formulas mockWorkerData mockExpertData mockTaskMetadata
     mockCombinedT001 mockCombinedT001_mem 3.5
     (by simp [mockCombinedT001, combineRow, mkExpertSummary, expertGroupRows,
        mockExpertData, mean])⟩

/-- A one-row worker table whose task has no expert rating, exercising the
NaN branch of the derived columns. -/
def soloWorkerRow : WorkerRow :=
  { taskId := "T001", task := "Create marketing materials and promotional content",
    occupation := "Marketing Managers", automationDesireRating := 4.2,
    jobSecurityRating := 3.1, enjoymentRating := 3.8, workerId := "W001",
    domain := "Marketing" }

/-- The combined row produced for `soloWorkerRow` with no expert or
metadata rows. -/
def soloCombinedRow : CombinedRow :=
  combineRow (mkWorkerSummary [soloWorkerRow] "T001") none none

/-- C3 counterexample: on a worker table with one T001 row and an empty
expert table, the combined T001 row has an absent expert capability rating,
yet its automation readiness is the defined value `4.2` (Python `min`
returns its first argument when the comparison with NaN is false), so the
claim that both derived columns are then undefined is false. -/
theorem C3_counterexample :
    ¬ (∀ row ∈ prepare_analysis_data [soloWorkerRow] [] [],
        row.expertCapabilityRating = none →
          row.automationReadiness = none ∧ row.desireCapabilityGap = none) := by
  intro h
  have hmem : soloCombinedRow ∈ prepare_analysis_data [soloWorkerRow] [] [] := by
    rw [show prepare_analysis_data [soloWorkerRow] [] [] = [soloCombinedRow]
      from rfl]
    exact List.mem_singleton.mpr rfl
  exact Option.some_ne_none _ (h soloCombinedRow hmem rfl).1

/-- C3 amended: for every combined row whose task identifier has no matching
Expert Rating rows, the mean expert capability rating and the
desire-capability gap are undefined (missing, not zero), while automation
readiness is defined and equals the mean automation desire rating; none of
this raises an error (the functions are total). -/
theorem C3_amended_no_expert_rows (w : List WorkerRow) (e : List ExpertRow)
    (t : List TaskRow) (row : CombinedRow)
    (hrow : row ∈ prepare_analysis_data w e t)
    (hno : row.taskId ∉ e.map (·.taskId)) :
    row.expertCapabilityRating = none ∧ row.desireCapabilityGap = none ∧
      row.automationReadiness = some row.automationDesireRating := by
  obtain ⟨k, hk, es, tr, hroweq, hcase⟩ := prepare_row_cases hrow
  have hkid : row.taskId = k := by rw [hroweq]; rfl
  rcases hcase with ⟨hnone, _⟩ | ⟨hsome, hmem⟩
  · subst hnone
    rw [hroweq]
    exact ⟨rfl, rfl, rfl⟩
  · exfalso
    rw [hkid] at hno
    exact hno hmem

/-- C3 witness: the single-worker, no-expert table instantiates the amended
claim. -/
theorem C3_witness :
    soloCombinedRow.expertCapabilityRating = none ∧
      soloCombinedRow.desireCapabilityGap = none ∧
      soloCombinedRow.automationReadiness =
        some soloCombinedRow.automationDesireRating :=
  C3_amended_no_expert_rows [soloWorkerRow] [] [] soloCombinedRow
    (by rw [show prepare_analysis_data [soloWorkerRow] [] [] = [soloCombinedRow]
        from rfl]
        exact List.mem_singleton.mpr rfl)
    (by simp)

/-- Collapsing a mapped option column: `reduceOption` after `map` is a
`filterMap`. -/
lemma reduceOption_map_eq {α β : Type} (l : List α) (f : α → Option β) :
    (l.map f).reduceOption = l.filterMap f := by
  induction l with
  | nil => rfl
  | cons x xs ih =>
    cases hx : f x <;> simp [List.filterMap_cons, hx, ih, List.reduceOption]

/-- A `filterMap` by a total `some` is a `map`. -/
lemma filterMap_some_eq {α β : Type} (l : List α) (g : α → β) :
    l.filterMap (fun x => some (g x)) = l.map g := by
  induction l with
  | nil => rfl
  | cons x xs ih => simp [List.filterMap_cons, ih]

/-- C4: every combined row carries, for its task group of the Worker
Response input, the arithmetic mean of automation desire, the sample
standard deviation of automation desire (stated through its square, the
sample variance), mean job security, mean enjoyment, and the first-seen
task description, occupation and domain of the group. -/
theorem C4_group_aggregates (w : List WorkerRow) (e : List ExpertRow)
    (t : List TaskRow) (row : CombinedRow)
    (hrow : row ∈ prepare_analysis_data w e t) :
    row.automationDesireRating =
      mean ((w.filter (fun r => r.taskId = row.taskId)).map (·.automationDesireRating)) ∧
    row.automationDesireStdSq =
      sampleVariance ((w.filter (fun r => r.taskId = row.taskId)).map (·.automationDesireRating)) ∧
    row.jobSecurityRating =
      mean ((w.filter (fun r => r.taskId = row.taskId)).map (·.jobSecurityRating)) ∧
    row.enjoymentRating =
      mean ((w.filter (fun r => r.taskId = row.taskId)).map (·.enjoymentRating)) ∧
    row.task = ((w.filter (fun r => r.taskId = row.taskId)).map (·.task)).headD "" ∧
    row.occupation =
      ((w.filter (fun r => r.taskId = row.taskId)).map (·.occupation)).headD "" ∧
    row.domain =
      ((w.filter (fun r => r.taskId = row.taskId)).map (·.domain)).headD "" := by
  obtain ⟨k, hk, es, tr, hroweq, _⟩ := prepare_row_cases hrow
  subst hroweq
  exact ⟨rfl, rfl, rfl, rfl, rfl, rfl, rfl⟩

/-- C4 witness: the T001 row of the fallback tables instantiates C4. -/
theorem C4_witness :
    mockCombinedT001.automationDesireRating =
      mean ((mockWorkerData.filter
        (fun r => r.taskId = mockCombinedT001.taskId)).map (·.automationDesireRating)) ∧
    mockCombinedT001.automationDesireStdSq =
      sampleVariance ((mockWorkerData.filter
        (fun r => r.taskId = mockCombinedT001.taskId)).map (·.automationDesireRating)) ∧
    mockCombinedT001.jobSecurityRating =
      mean ((mockWorkerData.filter
        (fun r => r.taskId = mockCombinedT001.taskId)).map (·.jobSecurityRating)) ∧
    mockCombinedT001.enjoymentRating =
      mean ((mockWorkerData.filter
        (fun r => r.taskId = mockCombinedT001.taskId)).map (·.enjoymentRating)) ∧
    mockCombinedT001.task = ((mockWorkerData.filter
        (fun r => r.taskId = mockCombinedT001.taskId)).map (·.task)).headD "" ∧
    mockCombinedT001.occupation = ((mockWorkerData.filter
        (fun r => r.taskId = mockCombinedT001.taskId)).map (·.occupation)).headD "" ∧
    mockCombinedT001.domain = ((mockWorkerData.filter
        (fun r => r.taskId = mockCombinedT001.taskId)).map (·.domain)).headD "" :=
  C4_group_aggregates mockWorkerData mockExpertData mockTaskMetadata
    mockCombinedT001 mockCombinedT001_mem

/-- C5: every combined row counts at least one worker, and its worker count
is the number of Worker Response input rows sharing its task identifier. -/
theorem C5_worker_count (w : List WorkerRow) (e : List ExpertRow)
    (t : List TaskRow) (row : CombinedRow)
    (hrow : row ∈ prepare_analysis_data w e t) :
    1 ≤ row.workerCount ∧
      row.workerCount = (w.filter (fun r => r.taskId = row.taskId)).length := by
  obtain ⟨k, hk, es, tr, hroweq, _⟩ := prepare_row_cases hrow
  subst hroweq
  have hne : w.filter (fun r => r.taskId = k) ≠ [] :=
    filter_key_ne_nil (f := fun r : WorkerRow => r.taskId) hk
  exact ⟨List.length_pos.mpr hne, rfl⟩

/-- C5 witness: the T001 row of the fallback tables has its two workers. -/
theorem C5_witness :
    1 ≤ mockCombinedT001.workerCount ∧
      mockCombinedT001.workerCount = (mockWorkerData.filter
        (fun r => r.taskId = mockCombinedT001.taskId)).length :=
  C5_worker_count mockWorkerData mockExpertData mockTaskMetadata
    mockCombinedT001 mockCombinedT001_mem

/-- C6: whatever the remote fetch does, the loader returns a pair of tables
and logs (it is total, so no exception propagates); when the fetch raises,
the returned tables are the fixed fallback triple and a warning is among
the logs. -/
theorem C6_fetch_error_fallback
    (fetch : Except String (List WorkerRow × List ExpertRow × List TaskRow)) :
    (∃ tables logs, load_workbank_datasets fetch = (tables, logs)) ∧
      ∀ msg, fetch = Except.error msg →
        (load_workbank_datasets fetch).1 = load_mock_data ∧
          (LogLevel.warning, "Failed to load from HuggingFace: " ++ msg) ∈
            (load_workbank_datasets fetch).2 := by
  refine ⟨⟨_, _, rfl⟩, ?_⟩
  rintro msg rfl
  exact ⟨rfl, by simp [load_workbank_datasets]⟩

/-- C6 witness: a fetch raising with message "boom" yields the fallback
triple and a logged warning. -/
theorem C6_witness :
    (load_workbank_datasets (Except.error "boom")).1 = load_mock_data ∧
      (LogLevel.warning, "Failed to load from HuggingFace: " ++ "boom") ∈
        (load_workbank_datasets (Except.error "boom")).2 :=
  (C6_fetch_error_fallback (Except.error "boom")).2 "boom" rfl

/-- C7: summary statistics report the row count as total tasks and the sum
of worker counts as total workers, and each mean (automation desire, expert
capability, automation readiness) is taken over exactly the rows whose
value for that field is defined — absent when no row has one, and never an
error. -/
theorem C7_summary_stats (df : List CombinedRow) :
    (get_summary_stats df).total_tasks = df.length ∧
    (get_summary_stats df).total_workers = (df.map (·.workerCount)).sum ∧
    (get_summary_stats df).avg_automation_desire =
      (if df = [] then none else some (mean (df.map (·.automationDesireRating)))) ∧
    (get_summary_stats df).avg_expert_capability =
      (if df.filterMap (·.expertCapabilityRating) = [] then none
        else some (mean (df.filterMap (·.expertCapabilityRating)))) ∧
    (get_summary_stats df).avg_automation_readiness =
      (if df.filterMap (·.automationReadiness) = [] then none
        else some (mean (df.filterMap (·.automationReadiness)))) := by
  refine ⟨rfl, rfl, ?_, ?_, ?_⟩
  · have h1 : (df.map (fun r => some r.automationDesireRating)).reduceOption =
        df.map (·.automationDesireRating) := by
      rw [reduceOption_map_eq, filterMap_some_eq]
    simp only [get_summary_stats, nanMean, h1, List.isEmpty_iff]
    by_cases hdf : df = []
    · simp [hdf]
    · simp [hdf, List.map_eq_nil_iff]
  · have h2 : (df.map (·.expertCapabilityRating)).reduceOption =
        df.filterMap (·.expertCapabilityRating) := reduceOption_map_eq _ _
    simp only [get_summary_stats, nanMean, h2, List.isEmpty_iff]
  · have h3 : (df.map (·.automationReadiness)).reduceOption =
        df.filterMap (·.automationReadiness) := reduceOption_map_eq _ _
    simp only [get_summary_stats, nanMean, h3, List.isEmpty_iff]

/-- C7 witness: the combined fallback table instantiates C7. -/
theorem C7_witness :
    (get_summary_stats mockCombinedRows).total_tasks = mockCombinedRows.length ∧
    (get_summary_stats mockCombinedRows).total_workers =
      (mockCombinedRows.map (·.workerCount)).sum ∧
    (get_summary_stats mockCombinedRows).avg_automation_desire =
      (if mockCombinedRows = [] then none
        else some (mean (mockCombinedRows.map (·.automationDesireRating)))) ∧
    (get_summary_stats mockCombinedRows).avg_expert_capability =
      (if mockCombinedRows.filterMap (·.expertCapabilityRating) = [] then none
        else some (mean (mockCombinedRows.filterMap (·.expertCapabilityRating)))) ∧
    (get_summary_stats mockCombinedRows).avg_automation_readiness =
      (if mockCombinedRows.filterMap (·.automationReadiness) = [] then none
        else some (mean (mockCombinedRows.filterMap (·.automationReadiness)))) :=
  C7_summary_stats mockCombinedRows

/-- Means over a mapped non-empty list inherit two-sided bounds from the
entries. -/
lemma mean_map_bounds {α : Type} {l : List α} {f : α → ℚ} {a b : ℚ}
    (hne : l ≠ []) (h : ∀ x ∈ l, a ≤ f x ∧ f x ≤ b) :
    a ≤ mean (l.map f) ∧ mean (l.map f) ≤ b := by
  have hne2 : l.map f ≠ [] := by
    intro hmap
    exact hne (List.map_eq_nil_iff.mp hmap)
  constructor
  · refine le_mean_of_forall hne2 ?_
    intro x hx
    obtain ⟨y, hy, rfl⟩ := List.mem_map.mp hx
    exact (h y hy).1
  · refine mean_le_of_forall hne2 ?_
    intro x hx
    obtain ⟨y, hy, rfl⟩ := List.mem_map.mp hx
    exact (h y hy).2

/-- Python `min` of a float and a possibly-NaN float is never NaN. -/
lemma pyMinFst_isSome (a : ℚ) (b : Option ℚ) : (pyMinFst a b).isSome = true := by
  cases b with
  | none => rfl
  | some c =>
    by_cases h : c < a <;> simp [pyMinFst, h]

/-- The automation readiness of a combined row is always a defined value
(Python `min` of a number and a possibly-NaN number is never NaN). -/
lemma combineRow_readiness_isSome (ws : WorkerSummaryRow)
    (es : Option ExpertSummaryRow) (tr : Option TaskRow) :
    (combineRow ws es tr).automationReadiness.isSome = true :=
  pyMinFst_isSome _ _

/-- A NaN-skipping column mean is defined as soon as one entry is. -/
lemma nanMean_isSome {xs : List (Option ℚ)} (h : ∃ x ∈ xs, x.isSome = true) :
    (nanMean xs).isSome = true := by
  obtain ⟨x, hx, hxs⟩ := h
  obtain ⟨v, rfl⟩ := Option.isSome_iff_exists.mp hxs
  have hv : v ∈ xs.reduceOption := List.reduceOption_mem_iff.mpr hx
  have hne : xs.reduceOption ≠ [] := List.ne_nil_of_mem hv
  simp [nanMean, List.isEmpty_iff, hne]

/-- C8: when every rating of the raw worker and expert tables lies in
`[1, 5]`, so does every present rating field of every combined row: the
three per-task worker means, the expert capability and confidence means,
and the automation readiness. -/
theorem C8_rating_bounds (w : List WorkerRow) (e : List ExpertRow)
    (t : List TaskRow)
    (hw : ∀ r ∈ w, (1 ≤ r.automationDesireRating ∧ r.automationDesireRating ≤ 5) ∧
      (1 ≤ r.jobSecurityRating ∧ r.jobSecurityRating ≤ 5) ∧
      (1 ≤ r.enjoymentRating ∧ r.enjoymentRating ≤ 5))
    (he : ∀ r ∈ e, (1 ≤ r.expertCapabilityRating ∧ r.expertCapabilityRating ≤ 5) ∧
      (1 ≤ r.confidence ∧ r.confidence ≤ 5)) :
    ∀ row ∈ prepare_analysis_data w e t,
      (1 ≤ row.automationDesireRating ∧ row.automationDesireRating ≤ 5) ∧
      (1 ≤ row.jobSecurityRating ∧ row.jobSecurityRating ≤ 5) ∧
      (1 ≤ row.enjoymentRating ∧ row.enjoymentRating ≤ 5) ∧
      (∀ c, row.expertCapabilityRating = some c → 1 ≤ c ∧ c ≤ 5) ∧
      (∀ c, row.confidence = some c → 1 ≤ c ∧ c ≤ 5) ∧
      (∀ c, row.automationReadiness = some c → 1 ≤ c ∧ c ≤ 5) := by
  intro row hrow
  obtain ⟨k, hk, es, tr, hroweq, hcase⟩ := prepare_row_cases hrow
  have hgne : groupRows w k ≠ [] :=
    filter_key_ne_nil (f := fun r : WorkerRow => r.taskId) hk
  have hgsub : ∀ r ∈ groupRows w k, r ∈ w := fun r hr => (List.mem_filter.mp hr).1
  have hdes := mean_map_bounds (f := fun r : WorkerRow => r.automationDesireRating)
    hgne (fun x hx => (hw x (hgsub x hx)).1)
  have hjob := mean_map_bounds (f := fun r : WorkerRow => r.jobSecurityRating)
    hgne (fun x hx => (hw x (hgsub x hx)).2.1)
  have henj := mean_map_bounds (f := fun r : WorkerRow => r.enjoymentRating)
    hgne (fun x hx => (hw x (hgsub x hx)).2.2)
  subst hroweq
  rcases hcase with ⟨hes, _⟩ | ⟨hes, hmem⟩
  · subst hes
    refine ⟨hdes, hjob, henj, ?_, ?_, ?_⟩
    · intro c hc
      simp [combineRow] at hc
    · intro c hc
      simp [combineRow] at hc
    · intro c hc
      have hac := Option.some.inj hc
      subst hac
      exact hdes
  · subst hes
    have hene : expertGroupRows e k ≠ [] :=
      filter_key_ne_nil (f := fun r : ExpertRow => r.taskId) (List.mem_dedup.mpr hmem)
    have hesub : ∀ r ∈ expertGroupRows e k, r ∈ e :=
      fun r hr => (List.mem_filter.mp hr).1
    have hcap := mean_map_bounds (f := fun r : ExpertRow => r.expertCapabilityRating)
      hene (fun x hx => (he x (hesub x hx)).1)
    have hconf := mean_map_bounds (f := fun r : ExpertRow => r.confidence)
      hene (fun x hx => (he x (hesub x hx)).2)
    refine ⟨hdes, hjob, henj, ?_, ?_, ?_⟩
    · intro c hc
      have hac := Option.some.inj hc
      subst hac
      exact hcap
    · intro c hc
      have hac := Option.some.inj hc
      subst hac
      exact hconf
    · intro c hc
      have hc2 : pyMinFst (mkWorkerSummary w k).automationDesireRating
          (some ((mkExpertSummary e k).expertCapabilityRating)) = some c := hc
      rw [pyMinFst_some] at hc2
      have hac := Option.some.inj hc2
      subst hac
      exact ⟨le_min hdes.1 hcap.1, le_trans (min_le_left _ _) hdes.2⟩

/-- C8 witness: the fallback tables satisfy the bound hypotheses, so every
present rating field of their combined rows lies in `[1, 5]`. -/
theorem C8_witness :
    (∀ r ∈ mockWorkerData,
      (1 ≤ r.automationDesireRating ∧ r.automationDesireRating ≤ 5) ∧
      (1 ≤ r.jobSecurityRating ∧ r.jobSecurityRating ≤ 5) ∧
      (1 ≤ r.enjoymentRating ∧ r.enjoymentRating ≤ 5)) ∧
    (∀ r ∈ mockExpertData,
      (1 ≤ r.expertCapabilityRating ∧ r.expertCapabilityRating ≤ 5) ∧
      (1 ≤ r.confidence ∧ r.confidence ≤ 5)) ∧
    ∀ row ∈ prepare_analysis_data mockWorkerData mockExpertData mockTaskMetadata,
      (1 ≤ row.automationDesireRating ∧ row.automationDesireRating ≤ 5) ∧
      (1 ≤ row.jobSecurityRating ∧ row.jobSecurityRating ≤ 5) ∧
      (1 ≤ row.enjoymentRating ∧ row.enjoymentRating ≤ 5) ∧
      (∀ c, row.expertCapabilityRating = some c → 1 ≤ c ∧ c ≤ 5) ∧
      (∀ c, row.confidence = some c → 1 ≤ c ∧ c ≤ 5) ∧
      (∀ c, row.automationReadiness = some c → 1 ≤ c ∧ c ≤ 5) := by
  have hw : ∀ r ∈ mockWorkerData,
      (1 ≤ r.automationDesireRating ∧ r.automationDesireRating ≤ 5) ∧
      (1 ≤ r.jobSecurityRating ∧ r.jobSecurityRating ≤ 5) ∧
      (1 ≤ r.enjoymentRating ∧ r.enjoymentRating ≤ 5) := by
    intro r hr
    fin_cases hr <;> norm_num
  have he : ∀ r ∈ mockExpertData,
      (1 ≤ r.expertCapabilityRating ∧ r.expertCapabilityRating ≤ 5) ∧
      (1 ≤ r.confidence ∧ r.confidence ≤ 5) := by
    intro r hr
    fin_cases hr <;> norm_num
  exact ⟨hw, he, C8_rating_bounds mockWorkerData mockExpertData mockTaskMetadata hw he⟩

/-- The combined row of task T003 of the fallback tables (a single
worker). -/
def mockCombinedT003 : CombinedRow :=
  combineRow (mkWorkerSummary mockWorkerData "T003")
    (some (mkExpertSummary mockExpertData "T003"))
    ((mockTaskMetadata.filter (fun tr => tr.taskId = "T003")).head?)

/-- The T003 row belongs to the combined fallback table. -/
lemma mockCombinedT003_mem :
    mockCombinedT003 ∈
      prepare_analysis_data mockWorkerData mockExpertData mockTaskMetadata := by
  rw [prepare_mock_eq]
  exact List.mem_map.mpr ⟨"T003", by decide, rfl⟩

/-- C9: every combined row of the fallback triple concerns a task present
in all three fallback tables, and none of its joined or derived fields —
expert capability, confidence, occupation code, task category, automation
readiness, desire-capability gap — is missing; the three summary-statistic
means are likewise defined. -/
theorem C9_fallback_no_missing :
    (∀ row ∈ prepare_analysis_data mockWorkerData mockExpertData mockTaskMetadata,
      (row.taskId ∈ mockWorkerData.map (·.taskId) ∧
        row.taskId ∈ mockExpertData.map (·.taskId) ∧
        row.taskId ∈ mockTaskMetadata.map (·.taskId)) ∧
      row.expertCapabilityRating.isSome = true ∧
      row.confidence.isSome = true ∧
      row.onetSocCode.isSome = true ∧
      row.taskCategory.isSome = true ∧
      row.automationReadiness.isSome = true ∧
      row.desireCapabilityGap.isSome = true) ∧
    (get_summary_stats (prepare_analysis_data mockWorkerData mockExpertData
      mockTaskMetadata)).avg_automation_desire.isSome = true ∧
    (get_summary_stats (prepare_analysis_data mockWorkerData mockExpertData
      mockTaskMetadata)).avg_expert_capability.isSome = true ∧
    (get_summary_stats (prepare_analysis_data mockWorkerData mockExpertData
      mockTaskMetadata)).avg_automation_readiness.isSome = true := by
  refine ⟨?_, ?_, ?_, ?_⟩
  · intro row hrow
    rw [prepare_mock_eq] at hrow
    simp only [mockCombinedRows, mockTaskIds, List.map_cons, List.map_nil,
      List.mem_cons, List.not_mem_nil, or_false] at hrow
    rcases hrow with rfl | rfl | rfl | rfl | rfl <;>
      exact ⟨⟨by decide, by decide, by decide⟩, rfl, rfl, rfl, rfl,
        combineRow_readiness_isSome _ _ _, rfl⟩
  · show (nanMean ((prepare_analysis_data mockWorkerData mockExpertData
        mockTaskMetadata).map (fun r => some r.automationDesireRating))).isSome = true
    exact nanMean_isSome
      ⟨some mockCombinedT003.automationDesireRating,
        List.mem_map.mpr ⟨mockCombinedT003, mockCombinedT003_mem, rfl⟩, rfl⟩
  · show (nanMean ((prepare_analysis_data mockWorkerData mockExpertData
        mockTaskMetadata).map (fun r => r.expertCapabilityRating))).isSome = true
    exact nanMean_isSome
      ⟨mockCombinedT003.expertCapabilityRating,
        List.mem_map.mpr ⟨mockCombinedT003, mockCombinedT003_mem, rfl⟩, rfl⟩
  · show (nanMean ((prepare_analysis_data mockWorkerData mockExpertData
        mockTaskMetadata).map (fun r => r.automationReadiness))).isSome = true
    exact nanMean_isSome
      ⟨mockCombinedT003.automationReadiness,
        List.mem_map.mpr ⟨mockCombinedT003, mockCombinedT003_mem, rfl⟩,
        combineRow_readiness_isSome _ _ _⟩

/-- C9 witness: the T003 fallback row instantiates the per-row part of
C9. -/
theorem C9_witness :
    (mockCombinedT003.taskId ∈ mockWorkerData.map (·.taskId) ∧
      mockCombinedT003.taskId ∈ mockExpertData.map (·.taskId) ∧
      mockCombinedT003.taskId ∈ mockTaskMetadata.map (·.taskId)) ∧
    mockCombinedT003.expertCapabilityRating.isSome = true ∧
    mockCombinedT003.confidence.isSome = true ∧
    mockCombinedT003.onetSocCode.isSome = true ∧
    mockCombinedT003.taskCategory.isSome = true ∧
    mockCombinedT003.automationReadiness.isSome = true ∧
    mockCombinedT003.desireCapabilityGap.isSome = true :=
  C9_fallback_no_missing.1 mockCombinedT003 mockCombinedT003_mem

/-- C10: a combined row whose task identifier has exactly one contributing
Worker Response row has an undefined standard deviation of automation
desire (a sample standard deviation needs two observations), while all its
other aggregated fields are defined — they are the values of that single
row. -/
theorem C10_single_worker_std (w : List WorkerRow) (e : List ExpertRow)
    (t : List TaskRow) (row : CombinedRow)
    (hrow : row ∈ prepare_analysis_data w e t)
    (h1 : (w.filter (fun r => r.taskId = row.taskId)).length = 1) :
    row.automationDesireStdSq = none ∧ row.workerCount = 1 ∧
      ∃ r, w.filter (fun r2 => r2.taskId = row.taskId) = [r] ∧
        row.automationDesireRating = r.automationDesireRating ∧
        row.jobSecurityRating = r.jobSecurityRating ∧
        row.enjoymentRating = r.enjoymentRating ∧
        row.task = r.task ∧ row.occupation = r.occupation ∧
        row.domain = r.domain := by
  obtain ⟨k, hk, es, tr, hroweq, _⟩ := prepare_row_cases hrow
  have hkid : row.taskId = k := by rw [hroweq]; rfl
  rw [hkid] at h1
  obtain ⟨r, hr⟩ := List.length_eq_one.mp h1
  have hg : groupRows w k = [r] := hr
  subst hroweq
  rw [hkid]
  refine ⟨?_, ?_, r, hg, ?_, ?_, ?_, ?_, ?_, ?_⟩
  · have hlen : ((groupRows w k).map (fun x => x.automationDesireRating)).length ≤ 1 := by
      rw [hg]
      simp
    exact sampleVariance_eq_none.mpr hlen
  · show (groupRows w k).length = 1
    rw [hg]
    rfl
  · show mean ((groupRows w k).map (fun x => x.automationDesireRating)) =
      r.automationDesireRating
    rw [hg]
    simp [mean_singleton]
  · show mean ((groupRows w k).map (fun x => x.jobSecurityRating)) =
      r.jobSecurityRating
    rw [hg]
    simp [mean_singleton]
  · show mean ((groupRows w k).map (fun x => x.enjoymentRating)) =
      r.enjoymentRating
    rw [hg]
    simp [mean_singleton]
  · show (((groupRows w k).map (fun x => x.task)).headD "") = r.task
    rw [hg]
    rfl
  · show (((groupRows w k).map (fun x => x.occupation)).headD "") = r.occupation
    rw [hg]
    rfl
  · show (((groupRows w k).map (fun x => x.domain)).headD "") = r.domain
    rw [hg]
    rfl

/-- C10 witness: task T003 of the fallback tables has a single worker, an
undefined desire standard deviation, and the values of that worker
elsewhere. -/
theorem C10_witness :
    mockCombinedT003.automationDesireStdSq = none ∧
    mockCombinedT003.workerCount = 1 ∧
      ∃ r, mockWorkerData.filter
          (fun r2 => r2.taskId = mockCombinedT003.taskId) = [r] ∧
        mockCombinedT003.automationDesireRating = r.automationDesireRating ∧
        mockCombinedT003.jobSecurityRating = r.jobSecurityRating ∧
        mockCombinedT003.enjoymentRating = r.enjoymentRating ∧
        mockCombinedT003.task = r.task ∧
        mockCombinedT003.occupation = r.occupation ∧
        mockCombinedT003.domain = r.domain :=
  C10_single_worker_std mockWorkerData mockExpertData mockTaskMetadata
    mockCombinedT003 mockCombinedT003_mem (by decide)

end Workbank
